import Mathlib

/-!
Shallow embedding of the playback synchronization engine of
src/src/components/room/VideoPlayer.tsx.

JS numbers carrying playback time are modelled as rationals; millisecond
timestamps as integers. A JS string field that may be null/undefined is
an Option String; JS truthiness of such a field (none, undefined, and the
empty string are falsy) is the function truthy below. Side effects
(database publish, toasts, console logging, player commands) are recorded
in an explicit effect list returned alongside the new component state.
-/

namespace SyncTube

/-- Row of the room playlist (playlist_items), mirrors the PlaylistItem
interface of VideoPlayer.tsx. -/
structure PlaylistItem where
  id : String
  video_id : String
  title : String
  position : Nat
deriving DecidableEq, Repr

/-- Shared playback state (video_rooms.video_state), mirrors the
VideoState interface. videoId is an Option String because the stored
state may lack a selected video. -/
structure VideoState where
  videoId : Option String
  isPlaying : Bool
  currentTime : ℚ
  timestamp : Int
deriving DecidableEq, Repr

/-- JS truthiness of a nullable string field: null/undefined and the
empty string are falsy. -/
def truthy : Option String → Bool
  | none => false
  | some s => s != ""

/-- The playlist membership scan of VideoPlayer.tsx: some entry has this
video_id. -/
def isInPlaylist (videoId : String) (pl : List PlaylistItem) : Bool :=
  pl.any (fun it => it.video_id == videoId)

/-- Partial VideoState as passed to updateRoomVideoState: none encodes an
absent field of the Partial object. -/
structure VideoStateUpdate where
  videoId : Option String
  isPlaying : Option Bool
  currentTime : Option ℚ
deriving DecidableEq, Repr

/-- The spread expression computing the new state in updateRoomVideoState:
a present field of updateData overrides, timestamp is stamped with now. -/
def applyUpdate (vs : VideoState) (u : VideoStateUpdate) (now : Int) : VideoState :=
  { videoId := match u.videoId with
      | some s => some s
      | none => vs.videoId
    isPlaying := u.isPlaying.getD vs.isPlaying
    currentTime := u.currentTime.getD vs.currentTime
    timestamp := now }

/-- Observable side effects of the handlers of VideoPlayer.tsx. -/
inductive Effect where
  /-- supabase update of video_rooms.video_state. -/
  | publish (s : VideoState)
  /-- toast with title "Can not play video" (membership rejection). -/
  | toastNotInPlaylist
  /-- toast with title "Playlist restarted". -/
  | toastPlaylistRestarted
  /-- toast with title "Playing next" and the next entry title. -/
  | toastPlayingNext (title : String)
  /-- console.log when a remote state change is ignored. -/
  | consoleIgnoredRemote
  /-- console.log when a local play attempt is rejected. -/
  | consoleRejectedLocal
  /-- console.error in the publish completion callback. -/
  | consolePublishError
  /-- playerRef.current.playVideo(). -/
  | playerPlay
  /-- playerRef.current.pauseVideo(). -/
  | playerPause
  /-- playerRef.current.seekTo(t, true). -/
  | playerSeek (t : ℚ)
deriving DecidableEq, Repr

/-- Effects a user can see in the UI: the toasts. Console logging is not
user-visible. -/
def Effect.isUserNotice : Effect → Bool
  | .toastNotInPlaylist => true
  | .toastPlaylistRestarted => true
  | .toastPlayingNext _ => true
  | _ => false

/-- Is this effect a shared-state publish? -/
def Effect.isPublish : Effect → Bool
  | .publish _ => true
  | _ => false

/-- Is this effect a command to the player control surface? -/
def Effect.isPlayerCommand : Effect → Bool
  | .playerPlay => true
  | .playerPause => true
  | .playerSeek _ => true
  | _ => false

/-- Is this effect a seek command? -/
def Effect.isSeek : Effect → Bool
  | .playerSeek _ => true
  | _ => false

/-- Component state of VideoPlayer relevant to playback sync: the React
state variables and refs. syncIntervalActive records whether the periodic
sync interval (syncIntervalRef) is currently installed. -/
structure EngineState where
  videoState : Option VideoState
  localIsPlaying : Bool
  isBuffering : Bool
  playlist : List PlaylistItem
  currentVideoPosition : Option Nat
  lastSyncTime : Int
  syncIntervalActive : Bool
deriving DecidableEq, Repr

/-- videoState?.videoId -/
def currentVideoId (e : EngineState) : Option String :=
  match e.videoState with
  | none => none
  | some vs => vs.videoId

/-- videoState?.isPlaying (falsy when videoState is null). -/
def isPlayingOf : Option VideoState → Bool
  | none => false
  | some vs => vs.isPlaying

/-- updateCurrentVideoPosition of VideoPlayer.tsx, as a pure function of
the playlist and the current video id: null when there is no truthy
current video or the playlist is empty, otherwise the findIndex result
when found. -/
def currentPositionOf (pl : List PlaylistItem) (cur : Option String) : Option Nat :=
  if !(truthy cur) || pl.isEmpty then none
  else
    let i := pl.findIdx (fun it => it.video_id == cur.getD "")
    if i < pl.length then some i else none

/-- Applying a playlist refetch result (fetchRoomPlaylist): the playlist
is replaced and currentVideoPosition recomputed; videoState is untouched. -/
def applyPlaylistFetch (newPl : List PlaylistItem) (e : EngineState) : EngineState :=
  let e1 := { e with playlist := newPl }
  { e1 with currentVideoPosition := currentPositionOf e1.playlist (currentVideoId e1) }

/-- handleVideoStateChange of VideoPlayer.tsx. now is Date.now() at
delivery time; playerTime is some t with the player's current time when
playerRef.current is mounted, none otherwise. -/
def handleVideoStateChange (now : Int) (newState : VideoState) (playerTime : Option ℚ)
    (e : EngineState) : EngineState × List Effect :=
  if now - e.lastSyncTime < 1000 then (e, [])
  else if truthy newState.videoId
      && !(isInPlaylist (newState.videoId.getD "") e.playlist)
      && !(e.playlist.isEmpty) then
    (e, [Effect.consoleIgnoredRemote])
  else
    let e1 := { e with videoState := some newState }
    match playerTime with
    | none => (e1, [])
    | some pt =>
      if newState.videoId ≠ currentVideoId e then
        ({ e1 with localIsPlaying := newState.isPlaying }, [])
      else
        let step :=
          if newState.isPlaying ≠ e.localIsPlaying then
            ({ e1 with localIsPlaying := newState.isPlaying },
             [if newState.isPlaying then Effect.playerPlay else Effect.playerPause])
          else (e1, ([] : List Effect))
        let seekFx :=
          if |pt - newState.currentTime| > 3 then [Effect.playerSeek newState.currentTime]
          else []
        (step.1, step.2 ++ seekFx)

/-- updateRoomVideoState of VideoPlayer.tsx. Returns the new component
state and the effects (membership rejection, or a publish of the merged
state). The supabase write itself is the publish effect; its completion
callback is publishErrorCallback below. -/
def updateRoomVideoState (now : Int) (roomId : String) (u : VideoStateUpdate)
    (e : EngineState) : EngineState × List Effect :=
  if roomId == "" then (e, [])
  else
    match e.videoState with
    | none => (e, [])
    | some vs =>
      if truthy u.videoId && !(e.playlist.isEmpty)
          && !(isInPlaylist (u.videoId.getD "") e.playlist) then
        (e, [Effect.consoleRejectedLocal, Effect.toastNotInPlaylist])
      else
        let updated := applyUpdate vs u now
        ({ e with videoState := some updated, lastSyncTime := now },
         [Effect.publish updated])

/-- The .then completion callback of the supabase update inside
updateRoomVideoState: on error it only writes console.error; no state is
touched and nothing is republished. -/
def publishErrorCallback (failed : Bool) (e : EngineState) : EngineState × List Effect :=
  if failed then (e, [Effect.consolePublishError]) else (e, [])

/-- playVideoFromPlaylist of VideoPlayer.tsx. -/
def playVideoFromPlaylist (now : Int) (roomId : String) (videoId : String)
    (e : EngineState) : EngineState × List Effect :=
  if !(isInPlaylist videoId e.playlist) && !(e.playlist.isEmpty) then
    (e, [Effect.consoleRejectedLocal, Effect.toastNotInPlaylist])
  else
    updateRoomVideoState now roomId
      { videoId := some videoId, isPlaying := some true, currentTime := some 0 } e

/-- playNextVideo of VideoPlayer.tsx. -/
def playNextVideo (now : Int) (roomId : String) (e : EngineState) :
    EngineState × List Effect :=
  if e.playlist.isEmpty || e.currentVideoPosition.isNone then
    match e.playlist with
    | [] => (e, [])
    | first :: _ =>
      let step := playVideoFromPlaylist now roomId first.video_id e
      (step.1, step.2 ++ [Effect.toastPlaylistRestarted])
  else
    match e.currentVideoPosition with
    | none => (e, [])
    | some i =>
      match e.playlist[(i + 1) % e.playlist.length]? with
      | some nextVideo =>
        let step := playVideoFromPlaylist now roomId nextVideo.video_id e
        (step.1, step.2 ++ [Effect.toastPlayingNext nextVideo.title])
      | none => (e, [])

/-- The pure next-entry selection performed by playNextVideo: the entry at
(index + 1) mod length when a current position exists, the first entry as
fallback, none for an empty playlist. -/
def nextChoice (pl : List PlaylistItem) (pos : Option Nat) : Option PlaylistItem :=
  if pl.isEmpty || pos.isNone then pl[0]?
  else
    match pos with
    | none => none
    | some i => pl[(i + 1) % pl.length]?

/-- AutoAdvance as a function of the playlist and the current video id:
the composition of the position computation and the next-entry choice. -/
def nextVideoTarget (pl : List PlaylistItem) (cur : Option String) : Option PlaylistItem :=
  nextChoice pl (currentPositionOf pl cur)

/-- The player status notifications dispatched by onPlayerStateChange. -/
inductive PlayerEvent where
  | playing
  | paused
  | buffering
  | ended
  | other
deriving DecidableEq, Repr

/-- onPlayerStateChange of VideoPlayer.tsx. playerTime is the player's
getCurrentTime when mounted (the code falls back to 0 when absent). -/
def onPlayerStateChange (ev : PlayerEvent) (now : Int) (roomId : String)
    (playerTime : Option ℚ) (e : EngineState) : EngineState × List Effect :=
  match ev with
  | .playing =>
    let e1 := { e with localIsPlaying := true, isBuffering := false }
    let step :=
      if !(isPlayingOf e.videoState) then
        updateRoomVideoState now roomId
          { videoId := none, isPlaying := some true, currentTime := some (playerTime.getD 0) } e1
      else (e1, [])
    ({ step.1 with syncIntervalActive := true }, step.2)
  | .paused =>
    let e1 := { e with localIsPlaying := false, isBuffering := false }
    let step :=
      if isPlayingOf e.videoState then
        updateRoomVideoState now roomId
          { videoId := none, isPlaying := some false, currentTime := some (playerTime.getD 0) } e1
      else (e1, [])
    ({ step.1 with syncIntervalActive := false }, step.2)
  | .buffering =>
    ({ e with isBuffering := true }, [])
  | .ended =>
    let e1 := { e with localIsPlaying := false, syncIntervalActive := false }
    playNextVideo now roomId e1
  | .other => (e, [])

/-- One tick of the periodic sync interval installed while playing: only
when both the player and a videoState exist, publish the current time. -/
def syncTick (now : Int) (roomId : String) (playerTime : Option ℚ) (e : EngineState) :
    EngineState × List Effect :=
  match playerTime, e.videoState with
  | some pt, some _ =>
    updateRoomVideoState now roomId
      { videoId := none, isPlaying := none, currentTime := some pt } e
  | _, _ => (e, [])

/-- The membership invariant on a video reference: it is not truthy
(nothing selected) or it occurs in the playlist. -/
def refOk (v : Option String) (pl : List PlaylistItem) : Bool :=
  !(truthy v) || isInPlaylist (v.getD "") pl

/-- The membership invariant of the spec: when the playlist is non-empty,
the selected video reference, if any, is a member of the playlist. -/
def membershipInv (e : EngineState) : Bool :=
  e.playlist.isEmpty ||
    (match e.videoState with
     | none => true
     | some vs => refOk vs.videoId e.playlist)

/-! Concrete fixtures used by witnesses and counterexamples. -/

/-- Playlist entry with video reference A. -/
def itemA : PlaylistItem :=
  { id := "idA", video_id := "A", title := "Video A", position := 0 }

/-- Playlist entry with video reference B. -/
def itemB : PlaylistItem :=
  { id := "idB", video_id := "B", title := "Video B", position := 1 }

/-- Playlist entry with video reference C. -/
def itemC : PlaylistItem :=
  { id := "idC", video_id := "C", title := "Video C", position := 2 }

/-- Shared state currently at video A, playing, 10 seconds in. -/
def vsA : VideoState :=
  { videoId := some "A", isPlaying := true, currentTime := 10, timestamp := 0 }

/-- A component state playing video A from the playlist with entries A and
B, with the periodic sync interval installed and last publish at time 0. -/
def exState : EngineState :=
  { videoState := some vsA, localIsPlaying := true, isBuffering := false,
    playlist := [itemA, itemB], currentVideoPosition := some 0,
    lastSyncTime := 0, syncIntervalActive := true }

/-- A component state with an empty playlist and video A selected. -/
def emptyPlState : EngineState :=
  { videoState := some vsA, localIsPlaying := true, isBuffering := false,
    playlist := [], currentVideoPosition := none,
    lastSyncTime := 0, syncIntervalActive := false }

/-- A component state with no shared video state observed yet. -/
def nullState : EngineState :=
  { videoState := none, localIsPlaying := false, isBuffering := false,
    playlist := [itemA, itemB], currentVideoPosition := none,
    lastSyncTime := 0, syncIntervalActive := false }

end SyncTube
namespace SyncTube

/-! Frame lemmas: the publish path only touches videoState and
lastSyncTime; the other component fields are untouched. -/

theorem updateRoomVideoState_frame (now : Int) (roomId : String) (u : VideoStateUpdate)
    (e : EngineState) :
    (updateRoomVideoState now roomId u e).1.playlist = e.playlist ∧
    (updateRoomVideoState now roomId u e).1.localIsPlaying = e.localIsPlaying ∧
    (updateRoomVideoState now roomId u e).1.isBuffering = e.isBuffering ∧
    (updateRoomVideoState now roomId u e).1.syncIntervalActive = e.syncIntervalActive ∧
    (updateRoomVideoState now roomId u e).1.currentVideoPosition = e.currentVideoPosition := by
  unfold updateRoomVideoState
  split
  · simp
  · split
    · simp
    · split <;> simp

theorem playVideoFromPlaylist_frame (now : Int) (roomId : String) (x : String)
    (e : EngineState) :
    (playVideoFromPlaylist now roomId x e).1.playlist = e.playlist ∧
    (playVideoFromPlaylist now roomId x e).1.localIsPlaying = e.localIsPlaying ∧
    (playVideoFromPlaylist now roomId x e).1.isBuffering = e.isBuffering ∧
    (playVideoFromPlaylist now roomId x e).1.syncIntervalActive = e.syncIntervalActive ∧
    (playVideoFromPlaylist now roomId x e).1.currentVideoPosition = e.currentVideoPosition := by
  unfold playVideoFromPlaylist
  split
  · simp
  · exact updateRoomVideoState_frame now roomId _ e

theorem playNextVideo_frame (now : Int) (roomId : String) (e : EngineState) :
    (playNextVideo now roomId e).1.playlist = e.playlist ∧
    (playNextVideo now roomId e).1.localIsPlaying = e.localIsPlaying ∧
    (playNextVideo now roomId e).1.isBuffering = e.isBuffering ∧
    (playNextVideo now roomId e).1.syncIntervalActive = e.syncIntervalActive ∧
    (playNextVideo now roomId e).1.currentVideoPosition = e.currentVideoPosition := by
  unfold playNextVideo
  split
  · split
    · simp
    · exact playVideoFromPlaylist_frame now roomId _ e
  · split
    · simp
    · split
      · exact playVideoFromPlaylist_frame now roomId _ e
      · simp

end SyncTube
namespace SyncTube

/-- C2: a local selection of a video reference absent from a non-empty
playlist is rejected with the not-in-playlist toast and console log,
leaves the component state completely unchanged, and publishes nothing. -/
theorem selection_rejected_out_of_playlist (now : Int) (roomId : String) (x : String)
    (e : EngineState) (hne : e.playlist ≠ [])
    (hx : isInPlaylist x e.playlist = false) :
    playVideoFromPlaylist now roomId x e =
      (e, [Effect.consoleRejectedLocal, Effect.toastNotInPlaylist]) := by
  unfold playVideoFromPlaylist
  rw [if_pos]
  simp [hx, List.isEmpty_iff, hne]

/-- Witness for C2 at the concrete input of the spec example: playlist
with entries A and B, selection of X. -/
theorem selection_rejected_out_of_playlist_witness :
    playVideoFromPlaylist 2000 "room1" "X" exState =
      (exState, [Effect.consoleRejectedLocal, Effect.toastNotInPlaylist]) :=
  selection_rejected_out_of_playlist 2000 "room1" "X" exState
    (by decide) (by decide)

end SyncTube
namespace SyncTube

/-- C3: with an empty playlist snapshot the membership guard accepts any
video reference: an accepted (non-suppressed) remote update carrying it is
applied, and a local selection of it raises no rejection notice and, when
a shared state exists, publishes the switched state. -/
theorem empty_playlist_bypass (now : Int) (roomId : String) (ns : VideoState)
    (pt : Option ℚ) (x : String) (e : EngineState)
    (hpl : e.playlist = []) (hwin : ¬ now - e.lastSyncTime < 1000) :
    (handleVideoStateChange now ns pt e).1.videoState = some ns ∧
    ((playVideoFromPlaylist now roomId x e).2.any Effect.isUserNotice) = false ∧
    (∀ vs, e.videoState = some vs → roomId ≠ "" →
      (playVideoFromPlaylist now roomId x e).2 =
        [Effect.publish (applyUpdate vs
          { videoId := some x, isPlaying := some true, currentTime := some 0 } now)]) := by
  refine ⟨?_, ?_, ?_⟩
  · unfold handleVideoStateChange
    rw [if_neg hwin, if_neg (by simp [hpl])]
    cases pt with
    | none => simp
    | some t =>
      by_cases hsame : ns.videoId = currentVideoId e
      · simp only [hsame]
        split
        · rfl
        · split <;> rfl
      · simp [hsame]
  · unfold playVideoFromPlaylist updateRoomVideoState
    rw [if_neg (by simp [hpl])]
    split
    · simp
    · split
      · simp
      · rw [if_neg (by simp [hpl])]
        simp [Effect.isUserNotice]
  · intro vs hvs hroom
    unfold playVideoFromPlaylist updateRoomVideoState
    simp [hpl, hvs, hroom]

/-- Witness for C3: empty playlist, arbitrary reference X, delivery well
outside the suppression window, a shared state present. -/
theorem empty_playlist_bypass_witness :
    (handleVideoStateChange 2000
        { videoId := some "X", isPlaying := true, currentTime := 0, timestamp := 1900 }
        (some 0) emptyPlState).1.videoState =
      some { videoId := some "X", isPlaying := true, currentTime := 0, timestamp := 1900 } ∧
    ((playVideoFromPlaylist 2000 "room1" "X" emptyPlState).2.any Effect.isUserNotice) = false ∧
    (∀ vs, emptyPlState.videoState = some vs → "room1" ≠ "" →
      (playVideoFromPlaylist 2000 "room1" "X" emptyPlState).2 =
        [Effect.publish (applyUpdate vs
          { videoId := some "X", isPlaying := some true, currentTime := some 0 } 2000)]) :=
  empty_playlist_bypass 2000 "room1"
    { videoId := some "X", isPlaying := true, currentTime := 0, timestamp := 1900 }
    (some 0) "X" emptyPlState (by decide) (by decide)

end SyncTube
namespace SyncTube

/-- C10: with no shared PlaybackState observed yet (videoState null),
every state-update request is a no-op on shared state: the direct update
returns unchanged with no effects, selection / auto-advance / the periodic
tick publish nothing and leave videoState null, and the player status
handlers publish nothing. -/
theorem null_state_publish_noop (now : Int) (roomId : String) (u : VideoStateUpdate)
    (x : String) (pt : Option ℚ) (e : EngineState) (h : e.videoState = none) :
    updateRoomVideoState now roomId u e = (e, []) ∧
    (playVideoFromPlaylist now roomId x e).1 = e ∧
    ((playVideoFromPlaylist now roomId x e).2.any Effect.isPublish) = false ∧
    (playNextVideo now roomId e).1 = e ∧
    ((playNextVideo now roomId e).2.any Effect.isPublish) = false ∧
    syncTick now roomId pt e = (e, []) ∧
    (∀ ev, ((onPlayerStateChange ev now roomId pt e).1).videoState = none ∧
      ((onPlayerStateChange ev now roomId pt e).2.any Effect.isPublish) = false) := by
  have hupd : ∀ (u' : VideoStateUpdate) (e' : EngineState), e'.videoState = none →
      updateRoomVideoState now roomId u' e' = (e', []) := by
    intro u' e' h'
    unfold updateRoomVideoState
    split
    · rfl
    · rw [h']
  have hplay : ∀ (y : String) (e' : EngineState), e'.videoState = none →
      (playVideoFromPlaylist now roomId y e').1 = e' ∧
      ((playVideoFromPlaylist now roomId y e').2.any Effect.isPublish) = false := by
    intro y e' h'
    unfold playVideoFromPlaylist
    split
    · simp [Effect.isPublish]
    · rw [hupd _ _ h']
      simp
  have hnext : ∀ (e' : EngineState), e'.videoState = none →
      (playNextVideo now roomId e').1 = e' ∧
      ((playNextVideo now roomId e').2.any Effect.isPublish) = false := by
    intro e' h'
    unfold playNextVideo
    split
    · split
      · simp
      · rename_i x1 first tail heq
        have hp := hplay first.video_id e' h'
        simp [hp.1, hp.2, Effect.isPublish]
    · split
      · simp
      · split
        · rename_i i hi nextVideo heq
          have hp := hplay nextVideo.video_id e' h'
          simp [hp.1, hp.2, Effect.isPublish]
        · simp
  refine ⟨hupd u e h, (hplay x e h).1, (hplay x e h).2,
    (hnext e h).1, (hnext e h).2, ?_, ?_⟩
  · unfold syncTick
    split
    · exact hupd _ _ h
    · rfl
  · intro ev
    cases ev with
    | playing =>
      simp only [onPlayerStateChange]
      split
      · rw [hupd _ { e with localIsPlaying := true, isBuffering := false } h]
        exact ⟨h, rfl⟩
      · exact ⟨h, rfl⟩
    | paused =>
      simp only [onPlayerStateChange]
      split
      · rw [hupd _ { e with localIsPlaying := false, isBuffering := false } h]
        exact ⟨h, rfl⟩
      · exact ⟨h, rfl⟩
    | buffering => exact ⟨h, rfl⟩
    | ended =>
      simp only [onPlayerStateChange]
      have hp := hnext { e with localIsPlaying := false, syncIntervalActive := false } h
      exact ⟨by rw [hp.1]; exact h, hp.2⟩
    | other => exact ⟨h, rfl⟩

/-- Witness for C10: concrete component state with no shared video state
and the concrete update that selects video A. -/
theorem null_state_publish_noop_witness :
    updateRoomVideoState 2000 "room1"
        { videoId := some "A", isPlaying := some true, currentTime := some 0 }
        nullState = (nullState, []) ∧
    (playVideoFromPlaylist 2000 "room1" "A" nullState).1 = nullState ∧
    ((playVideoFromPlaylist 2000 "room1" "A" nullState).2.any Effect.isPublish) = false ∧
    (playNextVideo 2000 "room1" nullState).1 = nullState ∧
    ((playNextVideo 2000 "room1" nullState).2.any Effect.isPublish) = false ∧
    syncTick 2000 "room1" (some 7) nullState = (nullState, []) ∧
    (∀ ev, ((onPlayerStateChange ev 2000 "room1" (some 7) nullState).1).videoState = none ∧
      ((onPlayerStateChange ev 2000 "room1" (some 7) nullState).2.any Effect.isPublish) = false) :=
  null_state_publish_noop 2000 "room1"
    { videoId := some "A", isPlaying := some true, currentTime := some 0 }
    "A" (some 7) nullState (by decide)

end SyncTube
namespace SyncTube

/-- C8 counterexample: the completion callback of a failed publish emits
only a console error — no user-visible notice is surfaced to the caller,
contradicting the claim that the failure is reported as a user-visible
notice. (State is indeed untouched and nothing is retried.) -/
theorem publish_failure_no_user_notice :
    publishErrorCallback true exState = (exState, [Effect.consolePublishError]) ∧
    ((publishErrorCallback true exState).2.any Effect.isUserNotice) = false ∧
    ((publishErrorCallback true exState).2.filter Effect.isUserNotice) = [] :=
  ⟨rfl, rfl, rfl⟩

/-- C8 amended: a failed publish is only logged to the console (no
user-visible notice), the component state — including the PlaybackState
just written locally by updateRoomVideoState — is not rolled back, and no
retry publish is issued by the callback. -/
theorem publish_failure_logged_no_rollback (failed : Bool) (now : Int) (roomId : String)
    (u : VideoStateUpdate) (e : EngineState) :
    (publishErrorCallback failed e).1 = e ∧
    ((publishErrorCallback failed e).2.any Effect.isUserNotice) = false ∧
    ((publishErrorCallback failed e).2.any Effect.isPublish) = false ∧
    (failed = true → (publishErrorCallback failed e).2 = [Effect.consolePublishError]) ∧
    (publishErrorCallback failed (updateRoomVideoState now roomId u e).1).1 =
      (updateRoomVideoState now roomId u e).1 := by
  cases failed <;> simp [publishErrorCallback, Effect.isUserNotice, Effect.isPublish]

/-- Witness for C8 amended at a concrete failed publish. -/
theorem publish_failure_logged_no_rollback_witness :
    (publishErrorCallback true exState).1 = exState ∧
    ((publishErrorCallback true exState).2.any Effect.isUserNotice) = false ∧
    ((publishErrorCallback true exState).2.any Effect.isPublish) = false ∧
    (true = true → (publishErrorCallback true exState).2 = [Effect.consolePublishError]) ∧
    (publishErrorCallback true (updateRoomVideoState 2000 "room1"
        { videoId := none, isPlaying := some false, currentTime := some 4 } exState).1).1 =
      (updateRoomVideoState 2000 "room1"
        { videoId := none, isPlaying := some false, currentTime := some 4 } exState).1 :=
  publish_failure_logged_no_rollback true 2000 "room1"
    { videoId := none, isPlaying := some false, currentTime := some 4 } exState

/-- C9 counterexample: from a state where the periodic sync interval is
installed (as after entering Playing), the Buffering notification leaves
the interval installed — the transition out of Playing to Buffering does
not cancel the periodic publish timer. -/
theorem buffering_keeps_sync_interval :
    exState.syncIntervalActive = true ∧
    (onPlayerStateChange PlayerEvent.buffering 1500 "room1" (some 10) exState).1.isBuffering
      = true ∧
    (onPlayerStateChange PlayerEvent.buffering 1500 "room1" (some 10) exState).1.syncIntervalActive
      = true :=
  ⟨rfl, rfl, rfl⟩

/-- C9 amended: the periodic sync interval is installed on the Playing
notification and cleared on Paused and Ended, but the Buffering
notification leaves it untouched, so the timer stays installed while
buffering. -/
theorem sync_interval_lifecycle (now : Int) (roomId : String) (pt : Option ℚ)
    (e : EngineState) :
    (onPlayerStateChange PlayerEvent.playing now roomId pt e).1.syncIntervalActive = true ∧
    (onPlayerStateChange PlayerEvent.paused now roomId pt e).1.syncIntervalActive = false ∧
    (onPlayerStateChange PlayerEvent.ended now roomId pt e).1.syncIntervalActive = false ∧
    (onPlayerStateChange PlayerEvent.buffering now roomId pt e).1.syncIntervalActive =
      e.syncIntervalActive := by
  refine ⟨rfl, rfl, ?_, rfl⟩
  simp only [onPlayerStateChange]
  have hfr := playNextVideo_frame now roomId
    { e with localIsPlaying := false, syncIntervalActive := false }
  rw [hfr.2.2.2.1]

end SyncTube
namespace SyncTube

/-- The exact state this participant just published (echo delivery). -/
def nsEcho : VideoState :=
  { videoId := some "A", isPlaying := true, currentTime := 10, timestamp := 0 }

/-- A remote state carrying a video reference X outside the playlist. -/
def nsOutside : VideoState :=
  { videoId := some "X", isPlaying := true, currentTime := 0, timestamp := 1400 }

/-- Helper: an accepted (non-suppressed, membership-passing) remote
delivery is applied: the stored videoState becomes the delivered state. -/
theorem handleVideoStateChange_applies (now : Int) (ns : VideoState) (pt : Option ℚ)
    (e : EngineState) (hwin : ¬ now - e.lastSyncTime < 1000)
    (hmem : (truthy ns.videoId && !(isInPlaylist (ns.videoId.getD "") e.playlist)
      && !(e.playlist.isEmpty)) = false) :
    (handleVideoStateChange now ns pt e).1.videoState = some ns := by
  unfold handleVideoStateChange
  rw [if_neg hwin, if_neg (by simp [hmem])]
  cases pt with
  | none => rfl
  | some t =>
    dsimp only
    split
    · rfl
    · split <;> rfl

/-- C4 counterexample: a delivery arriving 1500 ms after the last local
publish — outside the 1000 ms suppression window — whose videoId is not
in the non-empty playlist is also discarded (state unchanged, no player
command, no publish), so being discarded is not equivalent to arriving
within the suppression window. -/
theorem discard_outside_window_counterexample :
    ¬ ((1500 : Int) - exState.lastSyncTime < 1000) ∧
    (handleVideoStateChange 1500 nsOutside (some 10) exState).1 = exState ∧
    ((handleVideoStateChange 1500 nsOutside (some 10) exState).2.any
      Effect.isPlayerCommand) = false ∧
    ((handleVideoStateChange 1500 nsOutside (some 10) exState).2.any
      Effect.isPublish) = false := by
  refine ⟨by decide, ?_, ?_, ?_⟩ <;>
    · unfold handleVideoStateChange
      rw [if_neg (by decide), if_pos (by decide)]
      try rfl

/-- C4 amended: a remote delivery arriving within 1000 ms of this
participant's last local publish is always discarded with no state change
and no effect; a delivery arriving outside the window is processed
(applied to the stored videoState) provided its videoId passes the
membership guard. -/
theorem echo_suppression_window (now : Int) (ns : VideoState) (pt : Option ℚ)
    (e : EngineState) :
    (now - e.lastSyncTime < 1000 → handleVideoStateChange now ns pt e = (e, [])) ∧
    (¬ now - e.lastSyncTime < 1000 →
      (truthy ns.videoId = false ∨ isInPlaylist (ns.videoId.getD "") e.playlist = true ∨
        e.playlist = []) →
      (handleVideoStateChange now ns pt e).1.videoState = some ns) := by
  constructor
  · intro hwin
    unfold handleVideoStateChange
    rw [if_pos hwin]
  · intro hwin hmem
    refine handleVideoStateChange_applies now ns pt e hwin ?_
    rcases hmem with h | h | h <;> simp [h]

/-- Witness for C4 at the spec's concrete inputs: the participant's own
state delivered back 500 ms after the publish is discarded; the same
delivery at 1500 ms is processed. -/
theorem echo_suppression_window_witness :
    handleVideoStateChange 500 nsEcho (some 10) exState = (exState, []) ∧
    (handleVideoStateChange 1500 nsEcho (some 10) exState).1.videoState = some nsEcho :=
  ⟨(echo_suppression_window 500 nsEcho (some 10) exState).1 (by decide),
   (echo_suppression_window 1500 nsEcho (some 10) exState).2 (by decide)
     (Or.inr (Or.inl (by decide)))⟩

end SyncTube
namespace SyncTube

/-- A remote state at the same video A with elapsed 12.4 seconds. -/
def nsDrift : VideoState :=
  { videoId := some "A", isPlaying := true, currentTime := 12.4, timestamp := 1400 }

/-- A remote state at the same video A with elapsed 13.1 seconds. -/
def nsSeek : VideoState :=
  { videoId := some "A", isPlaying := true, currentTime := 13.1, timestamp := 1400 }

/-- Helper: for an accepted same-video remote update, the effect list
contains a seek exactly when the absolute difference between the local
player time and the remote elapsed time exceeds 3 seconds, and the seek
target is exactly the remote elapsed time. -/
theorem handleVideoStateChange_seek (now : Int) (ns : VideoState) (pt : ℚ)
    (e : EngineState) (hwin : ¬ now - e.lastSyncTime < 1000)
    (hmem : (truthy ns.videoId && !(isInPlaylist (ns.videoId.getD "") e.playlist)
      && !(e.playlist.isEmpty)) = false)
    (hsame : ns.videoId = currentVideoId e) :
    ((handleVideoStateChange now ns (some pt) e).2.any Effect.isSeek) =
      decide (|pt - ns.currentTime| > 3) ∧
    (|pt - ns.currentTime| > 3 →
      Effect.playerSeek ns.currentTime ∈ (handleVideoStateChange now ns (some pt) e).2) := by
  unfold handleVideoStateChange
  rw [if_neg hwin, if_neg (by simp [hmem])]
  dsimp only
  rw [if_neg (not_not_intro hsame)]
  by_cases hd : |pt - ns.currentTime| > 3
  · rw [if_pos hd]
    constructor
    · split
      · cases ns.isPlaying <;> simp [Effect.isSeek, hd]
      · simp [Effect.isSeek, hd]
    · intro _
      split
      · cases ns.isPlaying <;> simp
      · simp
  · rw [if_neg hd]
    constructor
    · split
      · cases ns.isPlaying <;> simp [Effect.isSeek, hd]
      · simp [Effect.isSeek, hd]
    · intro h
      exact absurd h hd

/-- C5 counterexample: local player at 10.0 s, accepted remote update of
the same video at 12.4 s. The divergence 2.4 s exceeds the claimed 2 s
threshold, yet no seek is issued — the code's threshold is not 2 s. -/
theorem drift_threshold_two_counterexample :
    |(10 : ℚ) - nsDrift.currentTime| > 2 ∧
    ((handleVideoStateChange 1500 nsDrift (some 10) exState).2.any Effect.isSeek)
      = false := by
  constructor
  · show |(10 : ℚ) - 12.4| > 2
    rw [abs_sub_comm]
    norm_num [abs_of_nonneg]
  · unfold handleVideoStateChange
    rw [if_neg (by decide), if_neg (by decide)]
    dsimp only
    rw [if_neg (by decide), if_neg (show ¬ |(10 : ℚ) - nsDrift.currentTime| > 3 by
      show ¬ |(10 : ℚ) - 12.4| > 3
      rw [abs_sub_comm]
      norm_num [abs_of_nonneg]), if_neg (by decide)]
    rfl

/-- C5 amended: the drift threshold hardcoded in handleVideoStateChange is
3 seconds, with no configured compensation: an accepted same-video remote
update issues a seek to exactly remote.currentTime iff the local-remote
divergence exceeds 3 s; local 10.0 s vs remote 12.4 s issues no seek,
local 10.0 s vs remote 13.1 s seeks to 13.1 s. -/
theorem drift_correction_threshold_three (now : Int) (ns : VideoState) (pt : ℚ)
    (e : EngineState) (hwin : ¬ now - e.lastSyncTime < 1000)
    (hmem : (truthy ns.videoId && !(isInPlaylist (ns.videoId.getD "") e.playlist)
      && !(e.playlist.isEmpty)) = false)
    (hsame : ns.videoId = currentVideoId e) :
    (((handleVideoStateChange now ns (some pt) e).2.any Effect.isSeek) = true ↔
      |pt - ns.currentTime| > 3) ∧
    (|pt - ns.currentTime| > 3 →
      Effect.playerSeek ns.currentTime ∈ (handleVideoStateChange now ns (some pt) e).2) := by
  have h := handleVideoStateChange_seek now ns pt e hwin hmem hsame
  exact ⟨by rw [h.1]; exact decide_eq_true_iff, h.2⟩

/-- Witness for C5 amended at the spec's concrete inputs: remote 13.1 s
with local 10.0 s seeks to 13.1; remote 12.4 s with local 10.0 s does
not seek. -/
theorem drift_correction_threshold_three_witness :
    Effect.playerSeek nsSeek.currentTime ∈
      (handleVideoStateChange 1500 nsSeek (some 10) exState).2 ∧
    ((handleVideoStateChange 1500 nsDrift (some 10) exState).2.any Effect.isSeek)
      ≠ true := by
  have h31 : |(10 : ℚ) - nsSeek.currentTime| > 3 := by
    show |(10 : ℚ) - 13.1| > 3
    rw [abs_sub_comm]
    norm_num [abs_of_nonneg]
  have h24 : ¬ |(10 : ℚ) - nsDrift.currentTime| > 3 := by
    show ¬ |(10 : ℚ) - 12.4| > 3
    rw [abs_sub_comm]
    norm_num [abs_of_nonneg]
  constructor
  · exact (drift_correction_threshold_three 1500 nsSeek 10 exState (by decide) (by decide)
      (by decide)).2 h31
  · intro hcontra
    exact h24 ((drift_correction_threshold_three 1500 nsDrift 10 exState (by decide)
      (by decide) (by decide)).1.mp hcontra)

end SyncTube
namespace SyncTube

/-- C6: AutoAdvance next-entry computation. When the current position is
found at index i, the target is the entry at (i + 1) mod length; when the
playlist is empty the target is none; when the current reference yields no
position (null, empty-string or not found) in a non-empty playlist, the
target is the first entry. The position is the findIdx of the current
reference when present, non-empty and found, and none when the reference
is null. -/
theorem autoAdvance_next_computation (pl : List PlaylistItem) (cur : Option String) :
    (pl = [] → nextVideoTarget pl cur = none) ∧
    (∀ i, currentPositionOf pl cur = some i →
      nextVideoTarget pl cur = pl[(i + 1) % pl.length]?) ∧
    (pl ≠ [] → currentPositionOf pl cur = none → nextVideoTarget pl cur = pl[0]?) ∧
    (∀ c, cur = some c → c ≠ "" →
      pl.findIdx (fun it => it.video_id == c) < pl.length →
      currentPositionOf pl cur = some (pl.findIdx (fun it => it.video_id == c))) ∧
    (cur = none → currentPositionOf pl cur = none) := by
  refine ⟨?_, ?_, ?_, ?_, ?_⟩
  · intro h
    subst h
    simp [nextVideoTarget, currentPositionOf, nextChoice]
  · intro i h
    have hne : pl ≠ [] := by
      intro he
      subst he
      simp [currentPositionOf] at h
    unfold nextVideoTarget
    rw [h]
    simp [nextChoice, List.isEmpty_iff, hne]
  · intro hne h
    unfold nextVideoTarget
    rw [h]
    simp [nextChoice]
  · intro c hc hcne hlt
    subst hc
    have hne : pl ≠ [] := by
      intro he
      subst he
      simp at hlt
    simp [currentPositionOf, truthy, List.isEmpty_iff, hne, hlt, bne_iff_ne, hcne]
  · intro h
    subst h
    rfl

/-- Witness for C6 at the spec example: playlist A, B, C; current B
advances to C, current C wraps to A, the empty playlist yields none. -/
theorem autoAdvance_next_computation_witness :
    nextVideoTarget [itemA, itemB, itemC] (some "B") = some itemC ∧
    nextVideoTarget [itemA, itemB, itemC] (some "C") = some itemA ∧
    nextVideoTarget ([] : List PlaylistItem) (some "B") = none :=
  ⟨((autoAdvance_next_computation [itemA, itemB, itemC] (some "B")).2.1 1
      (by decide)).trans (by decide),
   ((autoAdvance_next_computation [itemA, itemB, itemC] (some "C")).2.1 2
      (by decide)).trans (by decide),
   (autoAdvance_next_computation [] (some "B")).1 rfl⟩

end SyncTube
namespace SyncTube

/-- The video-switch state produced by playVideoFromPlaylist: the chosen
video, playing, from 0 seconds, stamped with the write time. -/
def switchedState (v : String) (now : Int) : VideoState :=
  { videoId := some v, isPlaying := true, currentTime := 0, timestamp := now }

/-- Helper: selecting a playlist member while a shared state exists
switches the stored state to that video (playing, from 0, stamped now)
and publishes exactly that state. -/
theorem playVideoFromPlaylist_member (now : Int) (roomId : String) (v : String)
    (e : EngineState) (hroom : roomId ≠ "") (vs : VideoState)
    (hvs : e.videoState = some vs) (hin : isInPlaylist v e.playlist = true) :
    playVideoFromPlaylist now roomId v e =
      ({ e with videoState := some (switchedState v now), lastSyncTime := now },
       [Effect.publish (switchedState v now)]) := by
  unfold playVideoFromPlaylist updateRoomVideoState
  rw [if_neg (by simp [hin]), if_neg (by simp [hroom]), hvs]
  dsimp only
  rw [if_neg (by simp [hin])]
  rfl

/-- C7: when the player reports Ended with a non-empty playlist and an
existing shared state, the engine transitions to some playlist entry
exactly as for a remote video switch — stored state has the new videoId,
isPlaying true, currentTime 0 — and publishes that state. -/
theorem autoAdvance_transition_publishes (now : Int) (roomId : String) (pt : Option ℚ)
    (e : EngineState) (hroom : roomId ≠ "") (vs : VideoState)
    (hvs : e.videoState = some vs) (hpl : e.playlist ≠ []) :
    ∃ nv ∈ e.playlist,
      (onPlayerStateChange PlayerEvent.ended now roomId pt e).1.videoState =
        some (switchedState nv.video_id now) ∧
      Effect.publish (switchedState nv.video_id now) ∈
        (onPlayerStateChange PlayerEvent.ended now roomId pt e).2 := by
  have hlen : 0 < e.playlist.length := List.length_pos.mpr hpl
  simp only [onPlayerStateChange]
  unfold playNextVideo
  split
  · split
    · rename_i heq
      exact absurd heq hpl
    · rename_i x first tail heq
      have hmem : first ∈ e.playlist := by
        rw [show e.playlist = first :: tail from heq]
        exact List.mem_cons_self _ _
      have hin : isInPlaylist first.video_id e.playlist = true := by
        simp only [isInPlaylist, List.any_eq_true]
        exact ⟨first, hmem, by simp⟩
      refine ⟨first, hmem, ?_, ?_⟩ <;>
        · rw [playVideoFromPlaylist_member now roomId first.video_id
            { e with localIsPlaying := false, syncIntervalActive := false } hroom vs hvs hin]
          try simp
  · split
    · rename_i hcond x heq
      exfalso
      apply hcond
      have hp : e.currentVideoPosition = none := heq
      simp [hp]
    · rename_i i heq
      split
      · rename_i nextVideo heq2
        have hmem : nextVideo ∈ e.playlist := by
          have h := List.getElem?_eq_some.mp heq2
          obtain ⟨hlt, hget⟩ := h
          exact hget ▸ List.getElem_mem hlt
        have hin : isInPlaylist nextVideo.video_id e.playlist = true := by
          simp only [isInPlaylist, List.any_eq_true]
          exact ⟨nextVideo, hmem, by simp⟩
        refine ⟨nextVideo, hmem, ?_, ?_⟩ <;>
          · rw [playVideoFromPlaylist_member now roomId nextVideo.video_id
              { e with localIsPlaying := false, syncIntervalActive := false } hroom vs hvs hin]
            try simp
      · rename_i heq2
        rw [List.getElem?_eq_none_iff] at heq2
        exact absurd heq2 (not_le.mpr (Nat.mod_lt _ hlen))

/-- Witness for C7: ended at the concrete playing state publishes the
switch to some playlist entry. -/
theorem autoAdvance_transition_publishes_witness :
    ∃ nv ∈ exState.playlist,
      (onPlayerStateChange PlayerEvent.ended 2000 "room1" (some 10) exState).1.videoState =
        some (switchedState nv.video_id 2000) ∧
      Effect.publish (switchedState nv.video_id 2000) ∈
        (onPlayerStateChange PlayerEvent.ended 2000 "room1" (some 10) exState).2 :=
  autoAdvance_transition_publishes 2000 "room1" (some 10) exState (by decide) vsA
    rfl (by decide)

end SyncTube
namespace SyncTube

/-- C1 counterexample: from a valid state playing A with playlist A, B, a
playlist refetch that no longer contains A (A was removed) leaves
videoState pointing at A while the new playlist is non-empty: the
playlist-mutation step breaks the membership invariant and nothing
re-checks or repairs it. -/
theorem playlistRemoval_breaks_membership :
    membershipInv exState = true ∧
    (applyPlaylistFetch [itemB] exState).playlist ≠ [] ∧
    membershipInv (applyPlaylistFetch [itemB] exState) = false :=
  ⟨by decide, by decide, by decide⟩

/-- Helper: updateRoomVideoState preserves the membership invariant. -/
theorem updateRoomVideoState_preserves (now : Int) (roomId : String)
    (u : VideoStateUpdate) (e : EngineState) (h : membershipInv e = true) :
    membershipInv (updateRoomVideoState now roomId u e).1 = true := by
  unfold updateRoomVideoState
  split
  · exact h
  · split
    · exact h
    · rename_i vs hvs
      split
      · exact h
      · rename_i hguard
        cases hie : e.playlist.isEmpty with
        | true => simp [membershipInv, hie]
        | false =>
          have href : refOk vs.videoId e.playlist = true := by
            unfold membershipInv at h
            rw [hie, hvs] at h
            simpa using h
          cases hu : u.videoId with
          | none =>
            simp only [membershipInv, applyUpdate, hu, hie]
            simpa using href
          | some s =>
            by_cases hs : s = ""
            · simp [membershipInv, applyUpdate, hu, refOk, truthy, hs]
            · have hin : isInPlaylist s e.playlist = true := by
                cases hf : isInPlaylist s e.playlist with
                | true => rfl
                | false =>
                  exact absurd (by simp [hu, truthy, bne_iff_ne, hs, hie, hf])
                    hguard
              simp [membershipInv, applyUpdate, hu, refOk, truthy, hin]

/-- Helper: playVideoFromPlaylist preserves the membership invariant. -/
theorem playVideoFromPlaylist_preserves (now : Int) (roomId : String) (x : String)
    (e : EngineState) (h : membershipInv e = true) :
    membershipInv (playVideoFromPlaylist now roomId x e).1 = true := by
  unfold playVideoFromPlaylist
  split
  · exact h
  · exact updateRoomVideoState_preserves now roomId _ e h

/-- Helper: playNextVideo preserves the membership invariant. -/
theorem playNextVideo_preserves (now : Int) (roomId : String) (e : EngineState)
    (h : membershipInv e = true) :
    membershipInv (playNextVideo now roomId e).1 = true := by
  unfold playNextVideo
  split
  · split
    · exact h
    · exact playVideoFromPlaylist_preserves now roomId _ e h
  · split
    · exact h
    · split
      · exact playVideoFromPlaylist_preserves now roomId _ e h
      · exact h

/-- Helper: an accepted remote state passes the membership check. -/
theorem handleVideoStateChange_preserves (now : Int) (ns : VideoState) (pt : Option ℚ)
    (e : EngineState) (h : membershipInv e = true) :
    membershipInv (handleVideoStateChange now ns pt e).1 = true := by
  unfold handleVideoStateChange
  split
  · exact h
  · split
    · exact h
    · rename_i hguard
      have key : (e.playlist.isEmpty || refOk ns.videoId e.playlist) = true := by
        cases hie : e.playlist.isEmpty with
        | true => rfl
        | false =>
          cases hv : ns.videoId with
          | none => simp [refOk, truthy]
          | some s =>
            by_cases hs : s = ""
            · simp [refOk, truthy, hs]
            · have hin : isInPlaylist s e.playlist = true := by
                cases hf : isInPlaylist s e.playlist with
                | true => rfl
                | false =>
                  exact absurd (by simp [hv, truthy, bne_iff_ne, hs, hie, hf])
                    hguard
              simp [refOk, truthy, hin]
      cases pt with
      | none => simpa [membershipInv] using key
      | some t =>
        dsimp only
        split
        · simpa [membershipInv] using key
        · split <;> simpa [membershipInv] using key

/-- Helper: the player status handlers preserve the membership invariant. -/
theorem onPlayerStateChange_preserves (ev : PlayerEvent) (now : Int) (roomId : String)
    (pt : Option ℚ) (e : EngineState) (h : membershipInv e = true) :
    membershipInv (onPlayerStateChange ev now roomId pt e).1 = true := by
  cases ev with
  | playing =>
    simp only [onPlayerStateChange]
    split
    · exact updateRoomVideoState_preserves now roomId _
        { e with localIsPlaying := true, isBuffering := false } h
    · exact h
  | paused =>
    simp only [onPlayerStateChange]
    split
    · exact updateRoomVideoState_preserves now roomId _
        { e with localIsPlaying := false, isBuffering := false } h
    · exact h
  | buffering => exact h
  | ended =>
    exact playNextVideo_preserves now roomId
      { e with localIsPlaying := false, syncIntervalActive := false } h
  | other => exact h

/-- C1 amended: the membership invariant is preserved by every
PlaybackState mutation — remote-update application, local publish, local
selection, auto-advance, player status handling and the periodic tick —
relative to the playlist snapshot the mutation checks against; playlist
mutation itself (applyPlaylistFetch) is not guarded and can break the
invariant. -/
theorem membership_preserved_by_state_mutations (now : Int) (roomId : String)
    (ns : VideoState) (u : VideoStateUpdate) (x : String) (pt : Option ℚ)
    (ev : PlayerEvent) (e : EngineState) (h : membershipInv e = true) :
    membershipInv (handleVideoStateChange now ns pt e).1 = true ∧
    membershipInv (updateRoomVideoState now roomId u e).1 = true ∧
    membershipInv (playVideoFromPlaylist now roomId x e).1 = true ∧
    membershipInv (playNextVideo now roomId e).1 = true ∧
    membershipInv (onPlayerStateChange ev now roomId pt e).1 = true ∧
    membershipInv (syncTick now roomId pt e).1 = true := by
  refine ⟨handleVideoStateChange_preserves now ns pt e h,
    updateRoomVideoState_preserves now roomId u e h,
    playVideoFromPlaylist_preserves now roomId x e h,
    playNextVideo_preserves now roomId e h,
    onPlayerStateChange_preserves ev now roomId pt e h, ?_⟩
  unfold syncTick
  split
  · exact updateRoomVideoState_preserves now roomId _ e h
  · exact h

/-- Witness for C1 amended at the concrete playing state. -/
theorem membership_preserved_by_state_mutations_witness :
    membershipInv (handleVideoStateChange 2000 nsEcho (some 10) exState).1 = true ∧
    membershipInv (updateRoomVideoState 2000 "room1"
      { videoId := none, isPlaying := some false, currentTime := some 4 } exState).1 = true ∧
    membershipInv (playVideoFromPlaylist 2000 "room1" "B" exState).1 = true ∧
    membershipInv (playNextVideo 2000 "room1" exState).1 = true ∧
    membershipInv (onPlayerStateChange PlayerEvent.paused 2000 "room1" (some 10)
      exState).1 = true ∧
    membershipInv (syncTick 2000 "room1" (some 10) exState).1 = true :=
  membership_preserved_by_state_mutations 2000 "room1" nsEcho
    { videoId := none, isPlaying := some false, currentTime := some 4 } "B" (some 10)
    PlayerEvent.paused exState (by decide)

end SyncTube
